import Mathlib

set_option maxRecDepth 10000
set_option maxHeartbeats 1000000

/-!
Shallow embedding of the floating, resizable PDF-chat widget
(`ResizableChatBot` / `ChatBot` components): transcript data model,
the `handleSubmit` request pipeline, the drag-resize handler, and the
visibility/expand panel logic, together with theorems checking the
claims of the specification against this embedding.
-/

/-- Message roles in the chat transcript (the `Message` interface). -/
inductive Role where
  | user
  | assistant
deriving DecidableEq, Repr

/-- A transcript entry: role plus text content. -/
structure Message where
  role : Role
  content : String
deriving DecidableEq, Repr

/-- JS-style whitespace test used by `String.prototype.trim`. -/
def jsWhitespace (c : Char) : Bool :=
  c == ' ' || c == '\t' || c == '\n' || c == '\r'

/-- Embedding of the JS `input.trim()` call: strip leading and trailing
whitespace. -/
def jsTrim (s : String) : String :=
  ⟨((s.data.dropWhile jsWhitespace).reverse.dropWhile jsWhitespace).reverse⟩

/-- Prefix test on character lists, auxiliary to `jsIncludes`. -/
def charStartsWith : List Char → List Char → Bool
  | [], _ => true
  | _ :: _, [] => false
  | a :: as, b :: bs => a == b && charStartsWith as bs

/-- Substring occurrence test on character lists, auxiliary to `jsIncludes`. -/
def charContains (sub : List Char) : List Char → Bool
  | [] => sub.isEmpty
  | b :: bs => charStartsWith sub (b :: bs) || charContains sub bs

/-- Embedding of JS `s.includes(sub)`. -/
def jsIncludes (s sub : String) : Bool :=
  charContains sub.data s.data

/-- Embedding of JS `a || b` over possibly-absent strings: an absent or
empty (falsy) string falls through to the alternative. -/
def jsOrElse (o : Option String) (alt : String) : String :=
  match o with
  | some s => if s == "" then alt else s
  | none => alt

/-- The transient placeholder content appended while a request is pending. -/
def thinkingSentinel : String := "Thinking..."

/-- The seeded assistant greeting (initial `messages` state). -/
def greetingMessage : Message :=
  ⟨Role.assistant, "Hello! I can answer questions about the PDF content. What would you like to know?"⟩

/-- Suffix appended to every classified error before it enters the transcript. -/
def retrySuffix : String := " Please try again or rephrase your question."

/-- User-facing text for a network/transport failure. -/
def networkErrorText : String :=
  "Network error. Please check your internet connection and try again."

/-- User-facing text for an authentication failure. -/
def authErrorText : String :=
  "Authentication error. The Groq API key may be invalid."

/-- User-facing text for a rate-limit failure. -/
def rateLimitText : String :=
  "Rate limit exceeded. Please wait a moment and try again."

/-- User-facing text for a model-not-found failure. -/
def notFoundText : String :=
  "The AI model is not available. Please try again later."

/-- Embedding of the catch-block classification of a thrown error message
(substring matches, in source order). -/
def classifyError (m : String) : String :=
  if jsIncludes m "Failed to fetch" || jsIncludes m "NetworkError" then
    networkErrorText
  else if jsIncludes m "401" then
    authErrorText
  else if jsIncludes m "429" then
    rateLimitText
  else if jsIncludes m "404" then
    notFoundText
  else
    "Error: " ++ m

/-- Innermost level of the success-path JSON view: `message.content`,
possibly absent. -/
structure MsgJson where
  content : Option String
deriving DecidableEq, Repr

/-- One entry of `data.choices`; its `message` field may be absent. -/
structure ChoiceJson where
  message : Option MsgJson
deriving DecidableEq, Repr

/-- Success-path view of a parsed JSON body: the `choices` array, possibly
absent. -/
structure ApiData where
  choices : Option (List ChoiceJson)
deriving DecidableEq, Repr

/-- Error-path view of a parsed JSON body: `errorData.error?.message` and
`errorData.message`, each possibly absent. -/
structure ErrFields where
  errorMessage : Option String
  message : Option String
deriving DecidableEq, Repr

/-- A response body: either not valid JSON (`JSON.parse` fails and
`response.json()` throws with some parse-error message), or valid JSON
carrying both the success-path and the error-path views of the same value. -/
inductive BodyJson where
  | malformed (parseErrMsg : String)
  | wellFormed (data : ApiData) (err : ErrFields)
deriving DecidableEq, Repr

/-- Outcome of the `fetch` call: a settled HTTP response (status, raw body
text, parsed view) or a rejection (transport failure) with an error message. -/
inductive FetchOutcome where
  | resp (status : Nat) (text : String) (body : BodyJson)
  | thrown (msg : String)
deriving DecidableEq, Repr

/-- Embedding of the success-path checks: `!data.choices ||
!data.choices[0] || !data.choices[0].message` throws an invalid-format
error; a missing, empty or whitespace-only content throws an
empty-response error; otherwise the content is the reply. -/
def extractAiResponse (data : ApiData) : Except String String :=
  match data.choices with
  | none => .error "Invalid response format from API"
  | some [] => .error "Invalid response format from API"
  | some (c :: _) =>
    match c.message with
    | none => .error "Invalid response format from API"
    | some m =>
      match m.content with
      | none => .error "Empty response from AI"
      | some a =>
        if a == "" || jsTrim a == "" then .error "Empty response from AI"
        else .ok a

/-- Embedding of the non-ok branch deriving the thrown error message from
the response body: parsed JSON uses `error?.message || message || default`,
an unparsable body uses `HTTP <status>: <text>`. -/
def httpErrorMessage (status : Nat) (text : String) (body : BodyJson) : String :=
  match body with
  | .malformed _ => "HTTP " ++ toString status ++ ": " ++ text
  | .wellFormed _ ef =>
    jsOrElse ef.errorMessage (jsOrElse ef.message "Failed to get response from AI")

/-- The component state touched by `handleSubmit`; the panel state
(expanded flag, height, resizing flag) is disjoint and untouched by it. -/
structure ChatState where
  messages : List Message
  input : String
  isProcessing : Bool
deriving DecidableEq, Repr

/-- Initial chat state: seeded greeting, empty input, not processing. -/
def initialChatState : ChatState :=
  ⟨[greetingMessage], "", false⟩

/-- Removal of the transient placeholder: a filter by content match. -/
def removeThinking (l : List Message) : List Message :=
  l.filter (fun m => m.content != thinkingSentinel)

/-- Catch block: filter the placeholder (again), classify the error, append
the classified entry with the retry suggestion. -/
def catchAppend (msgs : List Message) (errMsg : String) : List Message :=
  removeThinking msgs ++ [⟨Role.assistant, classifyError errMsg ++ retrySuffix⟩]

/-- Transcript evolution from the point the `fetch` call settles; `msgs`
already holds the user entry and the placeholder. The ok path filters the
placeholder then appends the reply; every failure path reaches the catch
block. -/
def settleMessages (msgs : List Message) (outcome : FetchOutcome) : List Message :=
  match outcome with
  | .thrown em => catchAppend msgs em
  | .resp status text body =>
    let filtered := removeThinking msgs
    if 200 ≤ status ∧ status ≤ 299 then
      match body with
      | .malformed pm => catchAppend filtered pm
      | .wellFormed data _ =>
        match extractAiResponse data with
        | .error em => catchAppend filtered em
        | .ok ai => filtered ++ [⟨Role.assistant, ai⟩]
    else
      catchAppend filtered (httpErrorMessage status text body)

/-- JS falsiness of the credential read from the environment: absent or
empty string. -/
def keyMissing (apiKey : Option String) : Bool :=
  match apiKey with
  | none => true
  | some k => k == ""

/-- Observable result of one `handleSubmit` invocation: the final chat
state, whether the network call was issued, and whether the
configuration-error toast fired. -/
structure SubmitResult where
  state : ChatState
  networkCalled : Bool
  configErrorToast : Bool
deriving DecidableEq, Repr

/-- Synchronous prefix of `handleSubmit`: the state at the moment the fetch
call is issued (unchanged when a guard rejects the submission). -/
def handleSubmitSync (apiKey : Option String) (s : ChatState) : ChatState :=
  if jsTrim s.input == "" || s.isProcessing then s
  else if keyMissing apiKey then s
  else
    { messages := s.messages ++
        [⟨Role.user, jsTrim s.input⟩, ⟨Role.assistant, thinkingSentinel⟩],
      input := "",
      isProcessing := true }

/-- A whole `handleSubmit` run, settling the request with the given fetch
outcome; the `finally` block clears `isProcessing` on every settled path. -/
def handleSubmit (apiKey : Option String) (outcome : FetchOutcome) (s : ChatState) :
    SubmitResult :=
  if jsTrim s.input == "" || s.isProcessing then ⟨s, false, false⟩
  else if keyMissing apiKey then ⟨s, false, true⟩
  else
    let syncMsgs := s.messages ++
      [⟨Role.user, jsTrim s.input⟩, ⟨Role.assistant, thinkingSentinel⟩]
    ⟨⟨settleMessages syncMsgs outcome, "", false⟩, true, false⟩

/-- Clamp used by the resize handler. -/
def clampHeight (x : Int) : Int := max 200 (min 600 x)

/-- Embedding of `handleMouseMove`: a no-op unless resizing, otherwise the
height becomes the clamped `startHeight + (startY - clientY)`. -/
def handleMouseMove (isResizing : Bool) (startHeight startY clientY chatHeight : Int) :
    Int :=
  if !isResizing then chatHeight
  else clampHeight (startHeight + (startY - clientY))

/-- The initial panel height. -/
def initialChatHeight : Int := 400

/-- Externally-visible flag plus the internal expanded flag. -/
structure PanelState where
  isVisible : Bool
  isExpanded : Bool
deriving DecidableEq, Repr

/-- The effect keyed on `isVisible`: expand when visible and not yet
expanded. -/
def visibilityEffect (s : PanelState) : PanelState :=
  if s.isVisible && !s.isExpanded then { s with isExpanded := true } else s

/-- Panel events: a change of the external flag (re-running the effect when
the flag actually changes), the minimize button, the expand button, the
close button. -/
inductive PanelEvent where
  | visibleChange (b : Bool)
  | minimizeClick
  | expandClick
  | closeClick
deriving DecidableEq, Repr

/-- One panel transition; the second component records whether the
`onToggle` external-visibility callback was invoked. -/
def stepPanel (s : PanelState) : PanelEvent → PanelState × Bool
  | .visibleChange b =>
    let s1 : PanelState := { s with isVisible := b }
    (if b != s.isVisible then visibilityEffect s1 else s1, false)
  | .minimizeClick => ({ s with isExpanded := false }, false)
  | .expandClick => ({ s with isExpanded := true }, false)
  | .closeClick => (s, true)

/-- Events that can change the chat state: editing the input, submitting. -/
inductive ChatEvent where
  | setInput (t : String)
  | submit (apiKey : Option String) (outcome : FetchOutcome)

/-- One chat transition. -/
def stepChat (s : ChatState) : ChatEvent → ChatState
  | .setInput t => { s with input := t }
  | .submit k outcome => (handleSubmit k outcome s).state

/-- Reachable chat states: the seeded state and everything a sequence of
events can produce from it. -/
inductive ReachableChat : ChatState → Prop where
  | init : ReachableChat initialChatState
  | step {s} (h : ReachableChat s) (e : ChatEvent) : ReachableChat (stepChat s e)

/-- One message of the outbound request body. -/
structure ReqMessage where
  role : String
  content : String
deriving DecidableEq, Repr

/-- The outbound chat-completion request body. -/
structure RequestBody where
  model : String
  messages : List ReqMessage
  temperature : ℚ
  maxTokens : ℕ
deriving DecidableEq, Repr
/-- Text of the resizable-variant system prompt before the interpolated source text. -/
def promptPreResizable : String :=
  "You are a helpful teacher that answers questions related to PDF content using structured, well-formatted responses.\n" ++
  "\n" ++
  "FORMATTING REQUIREMENTS - STRICTLY FOLLOW:\n" ++
  "\n" ++
  "1. **Always start with a title using <h3><strong>Title: [Your Topic]</strong></h3>**\n" ++
  "\n" ++
  "2. **Use EMOJI BULLET POINTS for all lists:**\n" ++
  "   - Main points: Use 🔹 or 📌 or ⭐ \n" ++
  "   - Sub-points: Use 🔸 or ➤ or ▪️\n" ++
  "   - Steps: Use 1️⃣ 2️⃣ 3️⃣ or 📝 📋 ✅\n" ++
  "\n" ++
  "3. **FORCE BULLET POINT FORMAT - Never use regular text paragraphs:**\n" ++
  "   - Always use <ul><li> tags with emoji bullets\n" ++
  "   - Add proper spacing with <br/> tags\n" ++
  "   - Use <strong> for emphasis\n" ++
  "\n" ++
  "4. **Example structure to ALWAYS follow:**\n" ++
  "   <h3><strong>Title: Your Response Topic</strong></h3>\n" ++
  "   <ul>\n" ++
  "   <li>🔹 <strong>Main Point 1</strong>:<br/>\n" ++
  "   🔸 Sub-point explanation<br/>\n" ++
  "   🔸 Another sub-point with details</li>\n" ++
  "   <br/>\n" ++
  "   <li>📌 <strong>Main Point 2</strong>:<br/>\n" ++
  "   🔸 Clear explanation in simple terms<br/>\n" ++
  "   🔸 Real-life example or application</li>\n" ++
  "   </ul>\n" ++
  "\n" ++
  "5. **For numbered steps, use emoji numbers:**\n" ++
  "   <ol>\n" ++
  "   <li>1️⃣ <strong>First step</strong>: Explanation</li>\n" ++
  "   <li>2️⃣ <strong>Second step</strong>: Details</li>\n" ++
  "   <li>3️⃣ <strong>Final step</strong>: Conclusion</li>\n" ++
  "   </ol>\n" ++
  "\n" ++
  "CONTENT REQUIREMENTS:\n" ++
  "- Use EXTREMELY simple language (7-year-old level)\n" ++
  "- Give specific answer according to user\x27s question related to pdf content\n" ++
  "- Add helpful examples and real-life applications\n" ++
  "- Add famous mnemonics related to relavent information\n" ++
  "- Break complex information into simple emoji bullet point\n" ++
  "- Always be supportive and encouraging\n" ++
  "\n" ++
  "PDF Content:\n" ++
  ""

/-- Text of the resizable-variant system prompt after the interpolated source text. -/
def promptPostResizable : String :=
  "\n" ++
  "\n" ++
  "REMEMBER: ALWAYS use the structured format with emoji bullets - NEVER respond in plain paragraphs!"

/-- Text of the simplest-language-variant system prompt before the interpolated source text. -/
def promptPreSimplest : String :=
  "You are a helpful teacher that answers questions about PDF content in the ABSOLUTE SIMPLEST language possible.\n" ++
  "              You are given OCR text extracted from a PDF document and must answer questions related to it — whether they are directly in the text or not.\n" ++
  "              \n" ++
  "              IMPORTANT: Your answers must be COMPLETE and include ALL relevant information from the PDF text.\n" ++
  "              \n" ++
  "              Follow these strict guidelines:\n" ++
  "              \n" ++
  "              1. Use EXTREMELY simple language — define and explain from basics as if to a 7-year-old student\n" ++
  "              2. Format answers EXCLUSIVELY in bullet points (<ui> and <li>) with proper spacing between each point\n" ++
  "              3. Every bullet point MUST be separated by one line break for readability\n" ++
  "              4. Use <strong> HTML tags for important keywords, concepts and definitions\n" ++
  "              5. Keep explanations complete — do not leave out ANY important details\n" ++
  "              6. If asked to explain any concept, give 1-2 very simple examples\n" ++
  "              7. If the answer is not in the text, use your own knowledge to help but mention this fact\n" ++
  "              8. ALWAYS add helpful examples or real-life applications\n" ++
  "              9. NEVER use technical or medical jargon - explain everything in simple terms\n" ++
  "              10. ALWAYS format using HTML <ul><li> for bullet points with proper spacing\n" ++
  "              11. Add clear line breaks between different parts of your answer\n" ++
  "              12. If asked, create simple tables, comparisons, or explanations using HTML formatting\n" ++
  "              13. Always be helpful and supportive\n" ++
  "              14. NEVER skip any relevant information from the PDF text in your answer\n" ++
  "              15. If the information is complex, break it down into multiple simple points\n" ++
  "            \n" ++
  "Here\x27s the PDF content to reference:\n" ++
  ""

/-- Text of the simplest-language-variant system prompt after the interpolated source text. -/
def promptPostSimplest : String :=
  "\n" ++
  "\n" ++
  "Please answer questions related to content."

/-- Request body built by the resizable-variant `handleSubmit`
(`src/unnamed/part_000`): fixed model, fixed temperature 0.5, fixed
max_tokens 2000, one system message interpolating the source text, one
user message holding the captured trimmed input. -/
def requestBodyResizable (ocrText currentInput : String) : RequestBody :=
  { model := "meta-llama/llama-4-scout-17b-16e-instruct",
    messages := [⟨"system", promptPreResizable ++ ocrText ++ promptPostResizable⟩,
                 ⟨"user", currentInput⟩],
    temperature := 0.5,
    maxTokens := 2000 }

/-- Request body built by the simplest-language-variant `handleSubmit`
(`src/unnamed/part_001`): fixed model, fixed temperature 0.9, fixed
max_tokens 1000, same two-message shape. -/
def requestBodySimplest (ocrText currentInput : String) : RequestBody :=
  { model := "meta-llama/llama-4-scout-17b-16e-instruct",
    messages := [⟨"system", promptPreSimplest ++ ocrText ++ promptPostSimplest⟩,
                 ⟨"user", currentInput⟩],
    temperature := 0.9,
    maxTokens := 1000 }

/-- Does the outcome carry a successful (2xx, well-formed) reply whose
extracted text is exactly the placeholder sentinel? -/
def okReplyIsSentinel (outcome : FetchOutcome) : Bool :=
  match outcome with
  | .resp status _ (.wellFormed data _) =>
    decide (200 ≤ status ∧ status ≤ 299) &&
      (match extractAiResponse data with
       | .ok ai => ai == thinkingSentinel
       | .error _ => false)
  | _ => false

/-- Membership in the placeholder-filtered list. -/
theorem mem_removeThinking {m : Message} {l : List Message} :
    m ∈ removeThinking l ↔ m ∈ l ∧ m.content ≠ thinkingSentinel := by
  simp [removeThinking, List.mem_filter]

/-- Filtering keeps a head whose content is not the sentinel. -/
theorem removeThinking_cons {g : Message} {l : List Message}
    (hg : g.content ≠ thinkingSentinel) :
    removeThinking (g :: l) = g :: removeThinking l := by
  simp [removeThinking, List.filter_cons, hg]

/-- A classified error entry never collides with the sentinel: the retry
suffix alone is longer than the sentinel. -/
theorem classify_append_ne_sentinel (e : String) :
    classifyError e ++ retrySuffix ≠ thinkingSentinel := by
  intro h
  have hlen := congrArg String.length h
  rw [String.length_append] at hlen
  have h1 : retrySuffix.length = 44 := by decide
  have h2 : thinkingSentinel.length = 11 := by decide
  omega

/-- Every settled transcript is a placeholder-filtered list (of either the
pre-settlement messages or their once-filtered form) followed by one
appended assistant entry. -/
theorem settle_shape (msgs : List Message) (o : FetchOutcome) :
    ∃ X c, (X = msgs ∨ X = removeThinking msgs) ∧
      settleMessages msgs o = removeThinking X ++ [⟨Role.assistant, c⟩] := by
  cases o with
  | thrown em =>
    exact ⟨msgs, classifyError em ++ retrySuffix, Or.inl rfl, rfl⟩
  | resp status text body =>
    by_cases hst : 200 ≤ status ∧ status ≤ 299
    · cases body with
      | malformed pm =>
        refine ⟨removeThinking msgs, classifyError pm ++ retrySuffix, Or.inr rfl, ?_⟩
        simp [settleMessages, catchAppend, hst]
      | wellFormed data ef =>
        cases hE : extractAiResponse data with
        | error em =>
          refine ⟨removeThinking msgs, classifyError em ++ retrySuffix, Or.inr rfl, ?_⟩
          simp [settleMessages, catchAppend, hst, hE]
        | ok ai =>
          refine ⟨msgs, ai, Or.inl rfl, ?_⟩
          simp [settleMessages, hst, hE]
    · refine ⟨removeThinking msgs,
        classifyError (httpErrorMessage status text body) ++ retrySuffix, Or.inr rfl, ?_⟩
      simp [settleMessages, catchAppend, hst]

/-- A pre-settlement message whose content is not the sentinel survives
settlement. -/
theorem settle_mem {msgs : List Message} {o : FetchOutcome} {m : Message}
    (hm : m ∈ msgs) (hc : m.content ≠ thinkingSentinel) :
    m ∈ settleMessages msgs o := by
  obtain ⟨X, c, hX, hEq⟩ := settle_shape msgs o
  rw [hEq]
  refine List.mem_append_left _ (mem_removeThinking.mpr ⟨?_, hc⟩)
  rcases hX with rfl | rfl
  · exact hm
  · exact mem_removeThinking.mpr ⟨hm, hc⟩

/-- Settlement keeps a non-sentinel head. -/
theorem settle_head {msgs : List Message} {o : FetchOutcome} {g : Message}
    (hg : g.content ≠ thinkingSentinel) (h : msgs.head? = some g) :
    (settleMessages msgs o).head? = some g := by
  obtain ⟨X, c, hX, hEq⟩ := settle_shape msgs o
  rw [hEq]
  cases msgs with
  | nil => simp at h
  | cons a rest =>
    simp only [List.head?_cons, Option.some_inj] at h
    subst h
    rcases hX with rfl | rfl
    · rw [removeThinking_cons hg]
      simp
    · rw [removeThinking_cons hg, removeThinking_cons hg]
      simp

/-- No settled transcript contains a user-role entry with sentinel content:
the filter removes all of them and every appended entry has assistant role. -/
theorem settle_no_user_sentinel (msgs : List Message) (o : FetchOutcome) :
    (⟨Role.user, thinkingSentinel⟩ : Message) ∉ settleMessages msgs o := by
  intro hm
  obtain ⟨X, c, _, hEq⟩ := settle_shape msgs o
  rw [hEq] at hm
  rcases List.mem_append.mp hm with h | h
  · exact (mem_removeThinking.mp h).2 rfl
  · simp at h

/-- Unless the outcome is a 2xx reply whose extracted text is itself the
sentinel, no settled transcript contains a sentinel-content entry. -/
theorem settle_no_sentinel {msgs : List Message} {o : FetchOutcome}
    (ho : okReplyIsSentinel o = false) :
    ∀ m ∈ settleMessages msgs o, m.content ≠ thinkingSentinel := by
  intro m hm
  cases o with
  | thrown em =>
    simp only [settleMessages, catchAppend] at hm
    rcases List.mem_append.mp hm with h | h
    · exact (mem_removeThinking.mp h).2
    · rw [List.mem_singleton] at h
      subst h
      exact classify_append_ne_sentinel em
  | resp status text body =>
    by_cases hst : 200 ≤ status ∧ status ≤ 299
    · cases body with
      | malformed pm =>
        simp only [settleMessages, hst, if_true, catchAppend] at hm
        rcases List.mem_append.mp hm with h | h
        · exact (mem_removeThinking.mp h).2
        · rw [List.mem_singleton] at h
          subst h
          exact classify_append_ne_sentinel pm
      | wellFormed data ef =>
        cases hE : extractAiResponse data with
        | error em =>
          simp only [settleMessages, hst, if_true, hE, catchAppend] at hm
          rcases List.mem_append.mp hm with h | h
          · exact (mem_removeThinking.mp h).2
          · rw [List.mem_singleton] at h
            subst h
            exact classify_append_ne_sentinel em
        | ok ai =>
          simp only [settleMessages, hst, if_true, hE] at hm
          rcases List.mem_append.mp hm with h | h
          · exact (mem_removeThinking.mp h).2
          · rw [List.mem_singleton] at h
            subst h
            simp only [okReplyIsSentinel, hE, decide_eq_true hst, Bool.true_and] at ho
            exact beq_eq_false_iff_ne.mp ho
    · simp only [settleMessages, hst, if_false, catchAppend] at hm
      rcases List.mem_append.mp hm with h | h
      · exact (mem_removeThinking.mp h).2
      · rw [List.mem_singleton] at h
        subst h
        exact classify_append_ne_sentinel _

/-- Reduction of `handleSubmit` when all three entry guards pass. -/
theorem handleSubmit_main (apiKey : Option String) (outcome : FetchOutcome) (s : ChatState)
    (h1 : jsTrim s.input ≠ "") (h2 : s.isProcessing = false) (h3 : keyMissing apiKey = false) :
    handleSubmit apiKey outcome s =
      ⟨⟨settleMessages (s.messages ++
          [⟨Role.user, jsTrim s.input⟩, ⟨Role.assistant, thinkingSentinel⟩]) outcome,
        "", false⟩, true, false⟩ := by
  simp [handleSubmit, h1, h2, h3]

/-- C1: for every input that is non-empty after trimming, while no request
is in flight and the credential is present, the synchronous part of
handleSubmit appends exactly two messages — the user message holding the
trimmed input, then the assistant placeholder with the fixed sentinel
content — clears the input field and sets isProcessing to true. -/
theorem c1_submit_sync_appends (apiKey : Option String) (s : ChatState)
    (h1 : jsTrim s.input ≠ "") (h2 : s.isProcessing = false)
    (h3 : keyMissing apiKey = false) :
    (handleSubmitSync apiKey s).messages =
      s.messages ++ [⟨Role.user, jsTrim s.input⟩, ⟨Role.assistant, thinkingSentinel⟩] ∧
    (handleSubmitSync apiKey s).input = "" ∧
    (handleSubmitSync apiKey s).isProcessing = true := by
  simp [handleSubmitSync, h1, h2, h3]

/-- Witness for C1 at a concrete state. -/
theorem c1_witness :
    (handleSubmitSync (some "key") ⟨[greetingMessage], " hi ", false⟩).messages =
      [greetingMessage] ++ [⟨Role.user, jsTrim " hi "⟩, ⟨Role.assistant, thinkingSentinel⟩] ∧
    (handleSubmitSync (some "key") ⟨[greetingMessage], " hi ", false⟩).input = "" ∧
    (handleSubmitSync (some "key") ⟨[greetingMessage], " hi ", false⟩).isProcessing = true :=
  c1_submit_sync_appends (some "key") ⟨[greetingMessage], " hi ", false⟩
    (by decide) (by decide) (by decide)

/-- C2: a submission with an input empty after trimming, or made while a
request is in flight, or with the credential absent, leaves the state
unchanged and issues no network call; the configuration-error notification
fires exactly in the reachable missing-credential case. -/
theorem c2_guard_noop (apiKey : Option String) (outcome : FetchOutcome) (s : ChatState)
    (h : jsTrim s.input = "" ∨ s.isProcessing = true ∨ keyMissing apiKey = true) :
    (handleSubmit apiKey outcome s).state = s ∧
    (handleSubmit apiKey outcome s).networkCalled = false ∧
    ((handleSubmit apiKey outcome s).configErrorToast = true ↔
      (keyMissing apiKey = true ∧ jsTrim s.input ≠ "" ∧ s.isProcessing = false)) := by
  by_cases hin : jsTrim s.input = ""
  · simp [handleSubmit, hin]
  · by_cases hpr : s.isProcessing = true
    · simp [handleSubmit, hin, hpr]
    · have hk : keyMissing apiKey = true := by
        rcases h with h | h | h
        · exact absurd h hin
        · exact absurd h hpr
        · exact h
      simp [handleSubmit, hin, hpr, hk]

/-- Witness for C2 in the missing-credential case. -/
theorem c2_witness :
    (handleSubmit none (FetchOutcome.thrown "boom") ⟨[greetingMessage], "hi", false⟩).state =
      ⟨[greetingMessage], "hi", false⟩ ∧
    (handleSubmit none (FetchOutcome.thrown "boom")
      ⟨[greetingMessage], "hi", false⟩).networkCalled = false ∧
    ((handleSubmit none (FetchOutcome.thrown "boom")
        ⟨[greetingMessage], "hi", false⟩).configErrorToast = true ↔
      (keyMissing none = true ∧ jsTrim "hi" ≠ "" ∧ false = false)) :=
  c2_guard_noop none (FetchOutcome.thrown "boom") ⟨[greetingMessage], "hi", false⟩
    (Or.inr (Or.inr (by decide)))

/-- C6: with a drag in progress, every pointer move sets the height to the
clamp of startHeight + (startY - clientY) into [200, 600]; the result is
always within [200, 600]; an upward drag by d from a reachable height h
gives min 600 (h + d); a downward drag by d gives max 200 (h - d). -/
theorem c6_resize_clamp (startHeight startY clientY chatHeight : Int) :
    handleMouseMove true startHeight startY clientY chatHeight =
      clampHeight (startHeight + (startY - clientY)) ∧
    200 ≤ handleMouseMove true startHeight startY clientY chatHeight ∧
    handleMouseMove true startHeight startY clientY chatHeight ≤ 600 ∧
    (∀ d : Int, 0 ≤ d → 200 ≤ startHeight →
      handleMouseMove true startHeight startY (startY - d) chatHeight =
        min 600 (startHeight + d)) ∧
    (∀ d : Int, 0 ≤ d → startHeight ≤ 600 →
      handleMouseMove true startHeight startY (startY + d) chatHeight =
        max 200 (startHeight - d)) := by
  have hred : ∀ y : Int, handleMouseMove true startHeight startY y chatHeight =
      max 200 (min 600 (startHeight + (startY - y))) := fun _ => rfl
  refine ⟨rfl, ?_, ?_, fun d hd hh => ?_, fun d hd hh => ?_⟩
  · rw [hred]
    omega
  · rw [hred]
    omega
  · rw [hred]
    omega
  · rw [hred]
    omega

/-- Witness for C6: an upward drag of 250 px from height 400 reaches 600
via the min bound, a downward drag of 250 px reaches 200 via the max bound. -/
theorem c6_witness :
    handleMouseMove true 400 100 (100 - 250) 400 = min 600 (400 + 250) ∧
    handleMouseMove true 400 100 (100 + 250) 400 = max 200 (400 - 250) :=
  ⟨(c6_resize_clamp 400 100 0 400).2.2.2.1 250 (by decide) (by decide),
   (c6_resize_clamp 400 100 0 400).2.2.2.2 250 (by decide) (by decide)⟩

/-- C7: every outbound request body holds exactly two messages — the system
message equal to the fixed template with the source text interpolated
verbatim, then the user message equal to the captured input — a fixed model
identifier, a fixed per-variant temperature within [0.5, 0.9], and a fixed
per-variant max_tokens within [1000, 2000]; nothing here depends on
anything but the source text and the captured input. -/
theorem c7_request_body_fixed (ocrText currentInput : String) :
    (requestBodyResizable ocrText currentInput).messages =
      [⟨"system", promptPreResizable ++ ocrText ++ promptPostResizable⟩,
       ⟨"user", currentInput⟩] ∧
    (requestBodyResizable ocrText currentInput).model =
      "meta-llama/llama-4-scout-17b-16e-instruct" ∧
    (requestBodyResizable ocrText currentInput).temperature = 0.5 ∧
    (requestBodyResizable ocrText currentInput).maxTokens = 2000 ∧
    (requestBodySimplest ocrText currentInput).messages =
      [⟨"system", promptPreSimplest ++ ocrText ++ promptPostSimplest⟩,
       ⟨"user", currentInput⟩] ∧
    (requestBodySimplest ocrText currentInput).model =
      "meta-llama/llama-4-scout-17b-16e-instruct" ∧
    (requestBodySimplest ocrText currentInput).temperature = 0.9 ∧
    (requestBodySimplest ocrText currentInput).maxTokens = 1000 ∧
    ((0.5 : ℚ) ≤ (requestBodyResizable ocrText currentInput).temperature ∧
      (requestBodyResizable ocrText currentInput).temperature ≤ 0.9) ∧
    (1000 ≤ (requestBodyResizable ocrText currentInput).maxTokens ∧
      (requestBodyResizable ocrText currentInput).maxTokens ≤ 2000) ∧
    ((0.5 : ℚ) ≤ (requestBodySimplest ocrText currentInput).temperature ∧
      (requestBodySimplest ocrText currentInput).temperature ≤ 0.9) ∧
    (1000 ≤ (requestBodySimplest ocrText currentInput).maxTokens ∧
      (requestBodySimplest ocrText currentInput).maxTokens ≤ 2000) := by
  refine ⟨rfl, rfl, rfl, rfl, rfl, rfl, rfl, rfl, ⟨?_, ?_⟩, ⟨?_, ?_⟩, ⟨?_, ?_⟩, ⟨?_, ?_⟩⟩ <;>
    norm_num [requestBodyResizable, requestBodySimplest]

/-- C3 counterexample: a 2xx reply whose choice content is exactly the
sentinel leaves a sentinel-content message in the final transcript, so the
claim as stated fails on this input. -/
theorem c3_counterexample :
    (handleSubmit (some "key")
        (FetchOutcome.resp 200 "raw"
          (BodyJson.wellFormed ⟨some [⟨some ⟨some "Thinking..."⟩⟩]⟩ ⟨none, none⟩))
        ⟨[greetingMessage], "hi", false⟩).state.messages.getLast? =
      some ⟨Role.assistant, thinkingSentinel⟩ := by
  rfl

/-- C3 (amended): for every submission that reaches the network call, once
the request settles, isProcessing is false and no message with the sentinel
content remains — except when the settled outcome is a 2xx reply whose
extracted text is itself exactly the sentinel, which the success path
re-appends. -/
theorem c3_settlement_clears (apiKey : Option String) (outcome : FetchOutcome) (s : ChatState)
    (h1 : jsTrim s.input ≠ "") (h2 : s.isProcessing = false) (h3 : keyMissing apiKey = false)
    (h4 : okReplyIsSentinel outcome = false) :
    (handleSubmit apiKey outcome s).state.isProcessing = false ∧
    ∀ m ∈ (handleSubmit apiKey outcome s).state.messages, m.content ≠ thinkingSentinel := by
  rw [handleSubmit_main apiKey outcome s h1 h2 h3]
  exact ⟨rfl, fun m hm => settle_no_sentinel h4 m hm⟩

/-- Witness for C3 at a concrete thrown outcome. -/
theorem c3_witness :
    (handleSubmit (some "key") (FetchOutcome.thrown "boom")
        ⟨[greetingMessage], "hi", false⟩).state.isProcessing = false ∧
    (⟨Role.assistant, thinkingSentinel⟩ : Message) ∉
      (handleSubmit (some "key") (FetchOutcome.thrown "boom")
        ⟨[greetingMessage], "hi", false⟩).state.messages := by
  have h := c3_settlement_clears (some "key") (FetchOutcome.thrown "boom")
    ⟨[greetingMessage], "hi", false⟩ (by decide) (by decide) (by decide) (by decide)
  exact ⟨h.1, fun hmem => h.2 _ hmem rfl⟩

/-- C4 counterexample: a well-formed single-choice 2xx body whose content
is the non-empty string " " (one space) does not append that content; it
takes the empty-response error path instead. -/
theorem c4_counterexample :
    (handleSubmit (some "key")
        (FetchOutcome.resp 200 "raw"
          (BodyJson.wellFormed ⟨some [⟨some ⟨some " "⟩⟩]⟩ ⟨none, none⟩))
        ⟨[greetingMessage], "hi", false⟩).state.messages.getLast? =
      some ⟨Role.assistant,
        "Error: Empty response from AI Please try again or rephrase your question."⟩ ∧
    (⟨Role.assistant, " "⟩ : Message) ∉
      (handleSubmit (some "key")
        (FetchOutcome.resp 200 "raw"
          (BodyJson.wellFormed ⟨some [⟨some ⟨some " "⟩⟩]⟩ ⟨none, none⟩))
        ⟨[greetingMessage], "hi", false⟩).state.messages := by
  exact ⟨rfl, by decide⟩

/-- C4 (amended): a 2xx response with a well-formed single-choice body
whose text is non-empty after trimming appends exactly one assistant
message equal to that text, which ends the final transcript. -/
theorem c4_success_appends_reply (apiKey : Option String) (s : ChatState)
    (status : Nat) (text : String) (ai : String) (ef : ErrFields)
    (h1 : jsTrim s.input ≠ "") (h2 : s.isProcessing = false) (h3 : keyMissing apiKey = false)
    (hst : 200 ≤ status ∧ status ≤ 299) (hai : jsTrim ai ≠ "") :
    (handleSubmit apiKey
        (FetchOutcome.resp status text
          (BodyJson.wellFormed ⟨some [⟨some ⟨some ai⟩⟩]⟩ ef)) s).state.messages =
      removeThinking (s.messages ++ [⟨Role.user, jsTrim s.input⟩,
        ⟨Role.assistant, thinkingSentinel⟩]) ++ [⟨Role.assistant, ai⟩] ∧
    (handleSubmit apiKey
        (FetchOutcome.resp status text
          (BodyJson.wellFormed ⟨some [⟨some ⟨some ai⟩⟩]⟩ ef)) s).state.messages.getLast? =
      some ⟨Role.assistant, ai⟩ := by
  have hane : ai ≠ "" := by
    intro h
    apply hai
    rw [h]
    rfl
  have hE : extractAiResponse ⟨some [⟨some ⟨some ai⟩⟩]⟩ = .ok ai := by
    simp [extractAiResponse, hane, hai]
  rw [handleSubmit_main _ _ _ h1 h2 h3]
  refine ⟨?_, ?_⟩
  · simp [settleMessages, hst, hE]
  · simp [settleMessages, hst, hE, List.getLast?_concat]

/-- Witness for C4: the mocked "Hello" round trip of the claim. -/
theorem c4_witness :
    (handleSubmit (some "key")
        (FetchOutcome.resp 200 "raw"
          (BodyJson.wellFormed ⟨some [⟨some ⟨some "Hello"⟩⟩]⟩ ⟨none, none⟩))
        ⟨[greetingMessage], "hi", false⟩).state.messages =
      removeThinking ([greetingMessage] ++ [⟨Role.user, jsTrim "hi"⟩,
        ⟨Role.assistant, thinkingSentinel⟩]) ++ [⟨Role.assistant, "Hello"⟩] ∧
    (handleSubmit (some "key")
        (FetchOutcome.resp 200 "raw"
          (BodyJson.wellFormed ⟨some [⟨some ⟨some "Hello"⟩⟩]⟩ ⟨none, none⟩))
        ⟨[greetingMessage], "hi", false⟩).state.messages.getLast? =
      some ⟨Role.assistant, "Hello"⟩ :=
  c4_success_appends_reply (some "key") ⟨[greetingMessage], "hi", false⟩ 200 "raw" "Hello"
    ⟨none, none⟩ (by decide) (by decide) (by decide) (by decide) (by decide)

/-- C5 counterexample: a 429 response whose body parses as JSON with an
error message not containing "429" is classified generically, so the final
entry does not carry the rate-limit text; the clause "regardless of what
the 429 response body contains" fails on this input. -/
theorem c5_counterexample :
    (handleSubmit (some "key")
        (FetchOutcome.resp 429 "raw"
          (BodyJson.wellFormed ⟨none⟩ ⟨some "slow down", none⟩))
        ⟨[greetingMessage], "hi", false⟩).state.messages.getLast? =
      some ⟨Role.assistant,
        "Error: slow down Please try again or rephrase your question."⟩ ∧
    jsIncludes "Error: slow down Please try again or rephrase your question."
      rateLimitText = false := by
  exact ⟨rfl, rfl⟩

/-- C5 (amended): a 429 response yields the rate-limit entry (ending the
final transcript) whenever the derived error message contains "429" and
hits no earlier classification branch — in particular whenever the body is
not valid JSON; isProcessing is false afterwards. -/
theorem c5_rate_limit (apiKey : Option String) (s : ChatState) (text : String) (body : BodyJson)
    (h1 : jsTrim s.input ≠ "") (h2 : s.isProcessing = false) (h3 : keyMissing apiKey = false)
    (hm1 : jsIncludes (httpErrorMessage 429 text body) "429" = true)
    (hm2 : jsIncludes (httpErrorMessage 429 text body) "Failed to fetch" = false)
    (hm3 : jsIncludes (httpErrorMessage 429 text body) "NetworkError" = false)
    (hm4 : jsIncludes (httpErrorMessage 429 text body) "401" = false) :
    (handleSubmit apiKey (FetchOutcome.resp 429 text body) s).state.messages.getLast? =
      some ⟨Role.assistant, rateLimitText ++ retrySuffix⟩ ∧
    (handleSubmit apiKey (FetchOutcome.resp 429 text body) s).state.isProcessing = false := by
  rw [handleSubmit_main _ _ _ h1 h2 h3]
  have hcls : classifyError (httpErrorMessage 429 text body) = rateLimitText := by
    simp [classifyError, hm1, hm2, hm3, hm4]
  have hst : ¬ (200 ≤ 429 ∧ 429 ≤ 299) := by omega
  refine ⟨?_, rfl⟩
  simp [settleMessages, hst, catchAppend, hcls, List.getLast?_concat]

/-- Witness for C5 with an unparsable 429 body. -/
theorem c5_witness :
    (handleSubmit (some "key")
        (FetchOutcome.resp 429 "Too Many Requests" (BodyJson.malformed "x"))
        ⟨[greetingMessage], "hi", false⟩).state.messages.getLast? =
      some ⟨Role.assistant, rateLimitText ++ retrySuffix⟩ ∧
    (handleSubmit (some "key")
        (FetchOutcome.resp 429 "Too Many Requests" (BodyJson.malformed "x"))
        ⟨[greetingMessage], "hi", false⟩).state.isProcessing = false :=
  c5_rate_limit (some "key") ⟨[greetingMessage], "hi", false⟩ "Too Many Requests"
    (BodyJson.malformed "x") (by decide) (by decide) (by decide)
    (by decide) (by decide) (by decide) (by decide)

/-- The content of the seeded greeting is not the sentinel. -/
theorem greeting_content_ne : greetingMessage.content ≠ thinkingSentinel := by
  decide

/-- Any chat step keeps every non-sentinel message in the transcript. -/
theorem stepChat_preserves_nonsentinel (s : ChatState) (e : ChatEvent) (m : Message)
    (hm : m ∈ s.messages) (hc : m.content ≠ thinkingSentinel) :
    m ∈ (stepChat s e).messages := by
  cases e with
  | setInput t => exact hm
  | submit k o =>
    simp only [stepChat, handleSubmit]
    by_cases h1 : (jsTrim s.input == "" || s.isProcessing) = true
    · rw [if_pos h1]
      exact hm
    · rw [if_neg h1]
      by_cases h2 : keyMissing k = true
      · rw [if_pos h2]
        exact hm
      · rw [if_neg h2]
        exact settle_mem (List.mem_append_left _ hm) hc

/-- Any chat step keeps the greeting at the head of the transcript. -/
theorem stepChat_preserves_head (s : ChatState) (e : ChatEvent)
    (h : s.messages.head? = some greetingMessage) :
    (stepChat s e).messages.head? = some greetingMessage := by
  cases e with
  | setInput t => exact h
  | submit k o =>
    simp only [stepChat, handleSubmit]
    by_cases h1 : (jsTrim s.input == "" || s.isProcessing) = true
    · rw [if_pos h1]
      exact h
    · rw [if_neg h1]
      by_cases h2 : keyMissing k = true
      · rw [if_pos h2]
        exact h
      · rw [if_neg h2]
        refine settle_head greeting_content_ne ?_
        cases hs : s.messages with
        | nil =>
          rw [hs] at h
          simp at h
        | cons a rest =>
          rw [hs] at h
          simp only [List.head?_cons, Option.some_inj] at h
          subst h
          simp

/-- C8: in every reachable chat state the seeded greeting sits at index 0
of the transcript, and no step ever removes a message whose content differs
from the "Thinking..." sentinel — removal only ever targets
sentinel-content entries at settlement. -/
theorem c8_greeting_invariant (s : ChatState) (h : ReachableChat s) :
    s.messages.head? = some greetingMessage ∧
    ∀ (e : ChatEvent) (m : Message), m ∈ s.messages →
      m.content ≠ thinkingSentinel → m ∈ (stepChat s e).messages := by
  refine ⟨?_, fun e m hm hc => stepChat_preserves_nonsentinel s e m hm hc⟩
  induction h with
  | init => rfl
  | step hs e ih => exact stepChat_preserves_head _ e ih

/-- Witness for C8 at the initial state and one concrete step. -/
theorem c8_witness :
    initialChatState.messages.head? = some greetingMessage ∧
    greetingMessage ∈ (stepChat initialChatState (ChatEvent.setInput "x")).messages := by
  obtain ⟨h1, h2⟩ := c8_greeting_invariant initialChatState ReachableChat.init
  exact ⟨h1, h2 (ChatEvent.setInput "x") greetingMessage (by decide) (by decide)⟩

/-- C9: a hidden-to-shown transition of the external flag auto-expands the
panel; minimize then collapses it without invoking the external-visibility
callback and without changing external visibility; and while the flag stays
shown the effect does not fire again, so the expansion happens exactly once
per transition. -/
theorem c9_visibility_expand (s : PanelState) (h : s.isVisible = false) :
    (stepPanel s (PanelEvent.visibleChange true)).1.isExpanded = true ∧
    (stepPanel (stepPanel s (PanelEvent.visibleChange true)).1
        PanelEvent.minimizeClick).1.isVisible =
      (stepPanel s (PanelEvent.visibleChange true)).1.isVisible ∧
    (stepPanel (stepPanel s (PanelEvent.visibleChange true)).1
        PanelEvent.minimizeClick).2 = false ∧
    (stepPanel (stepPanel s (PanelEvent.visibleChange true)).1
        PanelEvent.minimizeClick).1.isExpanded = false ∧
    (stepPanel (stepPanel (stepPanel s (PanelEvent.visibleChange true)).1
        PanelEvent.minimizeClick).1 (PanelEvent.visibleChange true)).1.isExpanded = false := by
  obtain ⟨v, e⟩ := s
  cases v with
  | true => simp at h
  | false => cases e <;> simp [stepPanel, visibilityEffect]

/-- Witness for C9 from a hidden, collapsed panel. -/
theorem c9_witness :
    (stepPanel ⟨false, false⟩ (PanelEvent.visibleChange true)).1.isExpanded = true ∧
    (stepPanel (stepPanel ⟨false, false⟩ (PanelEvent.visibleChange true)).1
        PanelEvent.minimizeClick).1.isVisible =
      (stepPanel ⟨false, false⟩ (PanelEvent.visibleChange true)).1.isVisible ∧
    (stepPanel (stepPanel ⟨false, false⟩ (PanelEvent.visibleChange true)).1
        PanelEvent.minimizeClick).2 = false ∧
    (stepPanel (stepPanel ⟨false, false⟩ (PanelEvent.visibleChange true)).1
        PanelEvent.minimizeClick).1.isExpanded = false ∧
    (stepPanel (stepPanel (stepPanel ⟨false, false⟩ (PanelEvent.visibleChange true)).1
        PanelEvent.minimizeClick).1 (PanelEvent.visibleChange true)).1.isExpanded = false :=
  c9_visibility_expand ⟨false, false⟩ rfl

/-- C10: placeholder removal matches on content only — a submission whose
trimmed input is exactly "Thinking..." leaves no user-role message with
that content in the final transcript once the request settles, whatever
the outcome. -/
theorem c10_content_only_removal (apiKey : Option String) (outcome : FetchOutcome)
    (s : ChatState)
    (h1 : jsTrim s.input = thinkingSentinel) (h2 : s.isProcessing = false)
    (h3 : keyMissing apiKey = false) :
    (⟨Role.user, thinkingSentinel⟩ : Message) ∉
      (handleSubmit apiKey outcome s).state.messages := by
  have h1' : jsTrim s.input ≠ "" := by
    rw [h1]
    decide
  rw [handleSubmit_main apiKey outcome s h1' h2 h3]
  exact settle_no_user_sentinel _ outcome

/-- Witness for C10: submitting " Thinking... " (trimming to the sentinel)
against a thrown outcome. -/
theorem c10_witness :
    (⟨Role.user, thinkingSentinel⟩ : Message) ∉
      (handleSubmit (some "key") (FetchOutcome.thrown "boom")
        ⟨[greetingMessage], " Thinking... ", false⟩).state.messages :=
  c10_content_only_removal (some "key") (FetchOutcome.thrown "boom")
    ⟨[greetingMessage], " Thinking... ", false⟩ (by decide) (by decide) (by decide)
